import Mathlib

/-!
Shallow embedding of the Vector-API device firmware core
(`src/mongoose-os/src/main.c`) and proofs about its dispatch pipeline.

C doubles are modelled as real numbers; the `%.2f` formatting used by the
JSON serializer is presentation only, so encoded records carry the
full-precision field values.  Side effects (log lines, MQTT publishes) are
made observable as an explicit effect trace returned by each embedded
function, and the early-return structure of `send_vector_data` is made
observable as a `DispatchOutcome` naming the return path taken.
-/

/-- `struct vector_data` (main.c lines 12-17): three axes plus a derived
magnitude, all C doubles, modelled as reals. -/
structure vector_data where
  x : ℝ
  y : ℝ
  z : ℝ
  magnitude : ℝ

/-- `calculate_magnitude` (main.c lines 20-22):
`sqrt(v->x * v->x + v->y * v->y + v->z * v->z)`. -/
noncomputable def calculate_magnitude (v : vector_data) : ℝ :=
  Real.sqrt (v.x * v.x + v.y * v.y + v.z * v.z)

/-- The `vector_api` section of the device configuration, read through the
`mgos_sys_config_get_vector_api_*` accessors.  A `none` models a NULL
string returned for an unset key. -/
structure Config where
  enable : Bool
  server : Option String
  device_id : Option String
  send_telemetry : Bool
  sync_interval : Int

/-- Ambient device state read by the embedded functions: configuration,
MQTT connectivity (`mgos_mqtt_global_is_connected`), wall clock
(`mg_time`, cast to unsigned long seconds), free heap, uptime and WiFi
link state. -/
structure Env where
  config : Config
  mqtt_connected : Bool
  now : ℕ
  free_heap : ℕ
  uptime : ℝ
  wifi_ip_acquired : Bool

/-- The structured record serialized by `json_printf` (main.c lines 44-47):
device id, the vector fields and a timestamp.  Numeric fields are kept at
full precision; the C code formats them with two decimals on the wire. -/
structure Record where
  device_id : String
  x : ℝ
  y : ℝ
  z : ℝ
  magnitude : ℝ
  timestamp : ℕ

/-- Log levels used by the embedded code (`LL_WARN`, `LL_INFO`). -/
inductive LogLevel where
  | info
  | warn
deriving DecidableEq, Repr

/-- Observable side effects of one embedded call: a log line (optionally
carrying the encoded record it prints, as the `LL_INFO` line at main.c
line 49 does) or an MQTT publish with its topic and payload. -/
inductive Effect where
  | log (level : LogLevel) (record : Option Record)
  | publish (topic : String) (payload : Record)

/-- Names the return path `send_vector_data` takes.  The C function returns
void; these labels mark its early returns (lines 27 and 35) and whether the
fall-through path published (line 57) or not. -/
inductive DispatchOutcome where
  | sent
  | skippedDisabled
  | skippedNoServer
  | skippedNotConnected
deriving DecidableEq, Repr

/-- The gate at main.c line 33: `!server || strlen(server) == 0`. -/
def server_missing : Option String → Bool
  | none => true
  | some s => s.length == 0

/-- The C expression `device_id ? device_id : "unknown"` (main.c lines 45
and 56): the fallback fires on NULL only, not on an empty string. -/
def device_id_or_unknown (device_id : Option String) : String :=
  device_id.getD "unknown"

/-- `snprintf(topic, sizeof(topic), "vector-api/%s/data", did)` with
`char topic[100]` (main.c lines 54-56): writes at most 99 characters of the
formatted string plus a NUL terminator. -/
def snprintf_topic (did : String) : String :=
  String.mk (("vector-api/" ++ did ++ "/data").toList.take 99)

/-- `send_vector_data` (main.c lines 25-61).  Returns the sample as left by
the call (the C code mutates `v->magnitude` through the pointer), the
return path taken, and the trace of side effects in program order. -/
noncomputable def send_vector_data (env : Env) (v : vector_data) :
    vector_data × DispatchOutcome × List Effect :=
  if env.config.enable = false then
    (v, .skippedDisabled, [])
  else
    let server := env.config.server
    let device_id := env.config.device_id
    if server_missing server then
      (v, .skippedNoServer, [.log .warn none])
    else
      let v' : vector_data := { v with magnitude := calculate_magnitude v }
      let record : Record :=
        { device_id := device_id_or_unknown device_id
          x := v'.x
          y := v'.y
          z := v'.z
          magnitude := v'.magnitude
          timestamp := env.now }
      if env.mqtt_connected then
        (v', .sent,
          [.log .info (some record),
           .publish (snprintf_topic (device_id_or_unknown device_id)) record])
      else
        (v', .skippedNotConnected, [.log .info (some record)])

/-- The record `send_vector_data` serializes once both gates have passed:
the json_printf call at main.c lines 44-47, with `v->magnitude` already
filled in by line 38. -/
noncomputable def encoded_record (env : Env) (v : vector_data) : Record :=
  { device_id := device_id_or_unknown env.config.device_id
    x := v.x
    y := v.y
    z := v.z
    magnitude := calculate_magnitude v
    timestamp := env.now }

/-- Extracts the publishes of an effect trace, in order. -/
def publishes : List Effect → List (String × Record)
  | [] => []
  | .publish t r :: es => (t, r) :: publishes es
  | .log _ _ :: es => publishes es

/-- Extracts the log lines of an effect trace, in order. -/
def logs : List Effect → List (LogLevel × Option Record)
  | [] => []
  | .log lvl r :: es => (lvl, r) :: logs es
  | .publish _ _ :: es => logs es

/-- Extracts every encoded record appearing in an effect trace (logged or
published), in order. -/
def records : List Effect → List Record
  | [] => []
  | .log _ (some r) :: es => r :: records es
  | .log _ none :: es => records es
  | .publish _ r :: es => r :: records es

/-- Fields parsed by `json_scanf` from a request body against the shape
`x: %lf, y: %lf, z: %lf`: a field left `none` models an absent key, which
json_scanf leaves at the caller's initial value (`0` in both handlers). -/
structure RpcRequest where
  x : Option ℝ
  y : Option ℝ
  z : Option ℝ

/-- The reply body of `vector_create_handler` (main.c lines 74-75):
`result: x, y, z, magnitude`. -/
structure CreateReply where
  x : ℝ
  y : ℝ
  z : ℝ
  magnitude : ℝ

/-- The reply of `vector_http_handler` (main.c lines 133-144): the POST
branch answers `status: ok` plus a magnitude, any other method answers the
static descriptor carrying the configured device id (possibly NULL). -/
inductive HttpReply where
  | ok (magnitude : ℝ)
  | descriptor (device_id : Option String)

/-- `vector_create_handler` (main.c lines 64-79): lenient parse with zero
defaults, dispatch the sample, then reply with the locally parsed axes and
`calculate_magnitude(&v)` recomputed on the (possibly updated) sample. -/
noncomputable def vector_create_handler (env : Env) (req : RpcRequest) :
    CreateReply × List Effect :=
  let x := req.x.getD 0
  let y := req.y.getD 0
  let z := req.z.getD 0
  let r := send_vector_data env ⟨x, y, z, 0⟩
  ({ x := x, y := y, z := z, magnitude := calculate_magnitude r.1 }, r.2.2)

/-- `vector_http_handler` (main.c lines 121-150) on an HTTP request event:
the POST branch parses the body leniently, dispatches, and replies with
`calculate_magnitude(&v)`; any other method gets the static descriptor. -/
noncomputable def vector_http_handler (env : Env) (method : String)
    (body : RpcRequest) : HttpReply × List Effect :=
  if method == "POST" then
    let x := body.x.getD 0
    let y := body.y.getD 0
    let z := body.z.getD 0
    let r := send_vector_data env ⟨x, y, z, 0⟩
    (.ok (calculate_magnitude r.1), r.2.2)
  else
    (.descriptor env.config.device_id, [])

/-- `telemetry_timer_cb` (main.c lines 101-118).  Returns the list of
samples passed to `send_vector_data` (so a dispatch call count is
observable) together with the dispatch effects. -/
noncomputable def telemetry_timer_cb (env : Env) :
    List vector_data × List Effect :=
  if env.config.send_telemetry = false then ([], [])
  else
    let v : vector_data :=
      ⟨(env.free_heap : ℝ) / 1000, env.uptime / 100,
        if env.wifi_ip_acquired then 100 else 0, 0⟩
    ([v], (send_vector_data env v).2.2)

/-- One `mgos_set_timer` call: interval in milliseconds and the repeat
flag. -/
structure TimerArm where
  interval_ms : Int
  repeats : Bool

/-- The timer-arming behaviour of `mgos_app_init` (main.c lines 169-173):
the list of timers armed during startup.  The only `mgos_set_timer` call in
the program is this one, guarded by `sync_interval > 0`. -/
def mgos_app_init (cfg : Config) : List TimerArm :=
  if cfg.sync_interval > 0 then [⟨cfg.sync_interval * 1000, true⟩] else []

/-- A fully-populated configuration used as concrete witness input. -/
def cfg_on : Config :=
  ⟨true, some "a.b", some "dev1", true, 30⟩

/-- Witness device state: configured, MQTT connected. -/
def env_connected : Env :=
  ⟨cfg_on, true, 1700000000, 50000, 12, true⟩

/-- Witness device state: configured, MQTT disconnected. -/
def env_disconnected : Env :=
  ⟨cfg_on, false, 1700000000, 50000, 12, true⟩

/-- Witness device state with the `enable` flag off. -/
def env_disabled : Env :=
  ⟨⟨false, some "a.b", some "dev1", true, 30⟩, true, 0, 0, 0, true⟩

/-- Witness device state with an empty server endpoint. -/
def env_no_server : Env :=
  ⟨⟨true, some "", some "dev1", true, 30⟩, true, 0, 0, 0, true⟩

/-- Witness device state with a present-but-empty device id. -/
def env_empty_id : Env :=
  ⟨⟨true, some "a.b", some "", true, 30⟩, true, 5, 0, 0, true⟩

/-- An 84-character device id: one character beyond what fits the
100-byte topic buffer together with the 16 fixed characters of
`vector-api//data`. -/
def long_device_id : String :=
  String.mk (List.replicate 84 'a')

/-- Witness device state carrying the long device id. -/
def env_long_id : Env :=
  ⟨⟨true, some "a.b", some long_device_id, true, 30⟩, true, 7, 0, 0, true⟩

/-- Witness device state with periodic telemetry disabled. -/
def env_telemetry_off : Env :=
  ⟨⟨true, some "a.b", some "dev1", false, 30⟩, true, 0, 50000, 12, true⟩

theorem string_length_eq_zero (s : String) : s.length = 0 ↔ s = "" := by
  cases s with
  | mk l =>
    constructor
    · intro h
      have hl : l = [] := List.length_eq_zero.mp h
      rw [hl]
    · intro h
      have hl : l = [] := congrArg String.toList h
      rw [hl]
      rfl

theorem server_missing_some_false (s : String) (hs : s ≠ "") :
    server_missing (some s) = false := by
  unfold server_missing
  simp only [beq_eq_false_iff_ne, ne_eq]
  intro h0
  exact hs ((string_length_eq_zero s).mp h0)

theorem snprintf_topic_of_short (did : String) (h : did.length ≤ 83) :
    snprintf_topic did = "vector-api/" ++ did ++ "/data" := by
  unfold snprintf_topic
  have hlen : ("vector-api/" ++ did ++ "/data").toList.length ≤ 99 := by
    show ("vector-api/" ++ did ++ "/data").length ≤ 99
    rw [String.length_append, String.length_append]
    show 11 + did.length + 5 ≤ 99
    omega
  rw [List.take_of_length_le hlen]
  rfl

theorem send_enabled_eq (env : Env) (v : vector_data)
    (h1 : env.config.enable = true)
    (h2 : server_missing env.config.server = false) :
    send_vector_data env v =
      ({ v with magnitude := calculate_magnitude v },
        if env.mqtt_connected then .sent else .skippedNotConnected,
        if env.mqtt_connected then
          [.log .info (some (encoded_record env v)),
            .publish (snprintf_topic (device_id_or_unknown env.config.device_id))
              (encoded_record env v)]
        else [.log .info (some (encoded_record env v))]) := by
  unfold send_vector_data encoded_record
  by_cases hc : env.mqtt_connected <;> simp [h1, h2, hc]

theorem send_preserves_axes (env : Env) (v : vector_data) :
    (send_vector_data env v).1.x = v.x ∧ (send_vector_data env v).1.y = v.y ∧
      (send_vector_data env v).1.z = v.z := by
  unfold send_vector_data
  by_cases h1 : env.config.enable = false <;>
    by_cases h2 : server_missing env.config.server = true <;>
    by_cases h3 : env.mqtt_connected = true <;>
    simp [h1, h2, h3]

theorem calculate_magnitude_axes (v w : vector_data) (hx : v.x = w.x)
    (hy : v.y = w.y) (hz : v.z = w.z) :
    calculate_magnitude v = calculate_magnitude w := by
  unfold calculate_magnitude
  rw [hx, hy, hz]

theorem create_reply_eq (env : Env) (req : RpcRequest) :
    (vector_create_handler env req).1 =
      { x := req.x.getD 0, y := req.y.getD 0, z := req.z.getD 0,
        magnitude :=
          calculate_magnitude ⟨req.x.getD 0, req.y.getD 0, req.z.getD 0, 0⟩ } := by
  unfold vector_create_handler
  simp only [CreateReply.mk.injEq, true_and]
  exact calculate_magnitude_axes _ _ (send_preserves_axes _ _).1
    (send_preserves_axes _ _).2.1 (send_preserves_axes _ _).2.2

theorem http_reply_eq (env : Env) (method : String) (body : RpcRequest) :
    (vector_http_handler env method body).1 =
      if method == "POST" then
        .ok (calculate_magnitude ⟨body.x.getD 0, body.y.getD 0, body.z.getD 0, 0⟩)
      else
        .descriptor env.config.device_id := by
  unfold vector_http_handler
  by_cases hm : method == "POST"
  · simp only [hm, if_true, HttpReply.ok.injEq]
    exact calculate_magnitude_axes _ _ (send_preserves_axes _ _).1
      (send_preserves_axes _ _).2.1 (send_preserves_axes _ _).2.2
  · simp [hm]

/-- C1: if the `enable` flag is false, `send_vector_data` returns
immediately on its first gate: the sample comes back unchanged (no
magnitude computation) and the effect trace is empty (no log line, no
publish, no encoding). -/
theorem C1_disabled_skips (env : Env) (v : vector_data)
    (h : env.config.enable = false) :
    send_vector_data env v = (v, .skippedDisabled, []) := by
  simp [send_vector_data, h]

/-- C1 witness at a concrete disabled configuration and sample. -/
theorem C1_disabled_skips_witness :
    send_vector_data env_disabled ⟨3, 4, 0, 0⟩ =
      (⟨3, 4, 0, 0⟩, .skippedDisabled, []) :=
  C1_disabled_skips env_disabled ⟨3, 4, 0, 0⟩ rfl

/-- C2 (amended): with the feature enabled, a non-empty server endpoint,
MQTT connected, and a device segment short enough to fit the 100-byte
topic buffer, dispatch publishes exactly once, on topic
`vector-api/<device_id>/data` (`vector-api/unknown/data` when the id is
absent, since `device_id_or_unknown` is `getD "unknown"`), with the
encoded record as payload. -/
theorem C2_connected_publishes_once (env : Env) (v : vector_data)
    (h1 : env.config.enable = true)
    (h2 : ∃ s, env.config.server = some s ∧ s ≠ "")
    (h3 : env.mqtt_connected = true)
    (h4 : (device_id_or_unknown env.config.device_id).length ≤ 83) :
    publishes (send_vector_data env v).2.2 =
      [("vector-api/" ++ device_id_or_unknown env.config.device_id ++ "/data",
        encoded_record env v)] := by
  obtain ⟨s, hsv, hne⟩ := h2
  have h2' : server_missing env.config.server = false := by
    rw [hsv]
    exact server_missing_some_false s hne
  rw [send_enabled_eq env v h1 h2']
  simp [h3, publishes, snprintf_topic_of_short _ h4]

/-- C2 witness: a connected, configured device with device id `dev1`
publishes once on `vector-api/dev1/data`. -/
theorem C2_connected_publishes_once_witness :
    publishes (send_vector_data env_connected ⟨3, 4, 0, 0⟩).2.2 =
      [("vector-api/" ++ device_id_or_unknown env_connected.config.device_id
          ++ "/data",
        encoded_record env_connected ⟨3, 4, 0, 0⟩)] :=
  C2_connected_publishes_once env_connected ⟨3, 4, 0, 0⟩ rfl
    ⟨"a.b", rfl, by decide⟩ rfl (by decide)

/-- C2 counterexample: with an 84-character device id the topic written by
`snprintf` into the 100-byte buffer is truncated, so the publish topic is
not `vector-api/<device_id>/data`. -/
theorem C2_topic_truncation_counterexample :
    (publishes (send_vector_data env_long_id ⟨1, 2, 2, 0⟩).2.2).map Prod.fst ≠
      ["vector-api/" ++ long_device_id ++ "/data"] := by
  decide

/-- C3: with the feature enabled but the server endpoint absent or empty,
dispatch returns on its second gate: the sample is unchanged (no magnitude
computation, no encoding), the trace is exactly one warning-level log line,
and there is no publish. -/
theorem C3_no_server_skips (env : Env) (v : vector_data)
    (h1 : env.config.enable = true)
    (h2 : env.config.server = none ∨ env.config.server = some "") :
    send_vector_data env v = (v, .skippedNoServer, [.log .warn none]) := by
  have hm : server_missing env.config.server = true := by
    rcases h2 with h | h <;> rw [h] <;> rfl
  simp [send_vector_data, h1, hm]

/-- C3 witness at a concrete configuration with an empty server string. -/
theorem C3_no_server_skips_witness :
    send_vector_data env_no_server ⟨3, 4, 0, 0⟩ =
      (⟨3, 4, 0, 0⟩, .skippedNoServer, [.log .warn none]) :=
  C3_no_server_skips env_no_server ⟨3, 4, 0, 0⟩ rfl (Or.inr rfl)

/-- C4: the magnitude computation equals `sqrt(x² + y² + z²)` and is
non-negative; it is a total function of the three axes with no error
path. -/
theorem C4_magnitude_correct (v : vector_data) :
    calculate_magnitude v = Real.sqrt (v.x ^ 2 + v.y ^ 2 + v.z ^ 2) ∧
      0 ≤ calculate_magnitude v := by
  constructor
  · unfold calculate_magnitude
    ring_nf
  · exact Real.sqrt_nonneg _

/-- C5 (amended): once both gates pass, every record in the trace (logged
and published) carries device id `device_id_or_unknown identity.device_id`,
and the publish topic uses the same segment; the `unknown` fallback fires
only when the id is absent (NULL), not when it is present but empty. -/
theorem C5_device_id_fallback (env : Env) (v : vector_data)
    (h1 : env.config.enable = true)
    (h2 : server_missing env.config.server = false) :
    (env.mqtt_connected = true →
      (records (send_vector_data env v).2.2).map Record.device_id =
        [device_id_or_unknown env.config.device_id,
          device_id_or_unknown env.config.device_id] ∧
      (publishes (send_vector_data env v).2.2).map Prod.fst =
        [snprintf_topic (device_id_or_unknown env.config.device_id)]) ∧
    (env.mqtt_connected = false →
      (records (send_vector_data env v).2.2).map Record.device_id =
        [device_id_or_unknown env.config.device_id]) := by
  rw [send_enabled_eq env v h1 h2]
  constructor <;> intro hc <;> simp [hc, records, publishes, encoded_record]

/-- C5 witness: with device id `dev1`, both the logged and the published
record carry `dev1` and the topic is built from `dev1`. -/
theorem C5_device_id_fallback_witness :
    (records (send_vector_data env_connected ⟨1, 2, 2, 0⟩).2.2).map
        Record.device_id =
      [device_id_or_unknown env_connected.config.device_id,
        device_id_or_unknown env_connected.config.device_id] ∧
    (publishes (send_vector_data env_connected ⟨1, 2, 2, 0⟩).2.2).map
        Prod.fst =
      [snprintf_topic (device_id_or_unknown env_connected.config.device_id)] :=
  (C5_device_id_fallback env_connected ⟨1, 2, 2, 0⟩ rfl rfl).1 rfl

/-- C5 counterexample: a present-but-empty device id is used as-is — the
records carry `""`, not the claimed `"unknown"` fallback. -/
theorem C5_empty_id_counterexample :
    env_empty_id.config.device_id = some "" ∧
    (records (send_vector_data env_empty_id ⟨1, 0, 0, 0⟩).2.2).map
        Record.device_id = ["", ""] ∧
    ("" : String) ≠ "unknown" := by
  refine ⟨rfl, ?_, by decide⟩
  rw [send_enabled_eq env_empty_id ⟨1, 0, 0, 0⟩ rfl rfl]
  decide

/-- C6 (amended): every dispatch that passes the `enable` gate emits
exactly one log line (the warning on a missing endpoint, the info line
otherwise), and past both gates the encoded record appears in the log even
when MQTT is disconnected — but a disabled dispatch logs nothing, so the
claim's `every call` does not hold. -/
theorem C6_one_log_when_enabled (env : Env) (v : vector_data)
    (h1 : env.config.enable = true) :
    (logs (send_vector_data env v).2.2).length = 1 ∧
    (server_missing env.config.server = false →
      logs (send_vector_data env v).2.2 =
        [(.info, some (encoded_record env v))]) := by
  by_cases h2 : server_missing env.config.server = true
  · constructor
    · simp [send_vector_data, h1, h2, logs]
    · intro hf
      rw [hf] at h2
      cases h2
  · have h2' : server_missing env.config.server = false := by
      cases hb : server_missing env.config.server
      · rfl
      · exact absurd hb h2
    rw [send_enabled_eq env v h1 h2']
    by_cases hc : env.mqtt_connected <;> simp [hc, logs]

/-- C6 witness: a disconnected but configured dispatch still produces
exactly one log line and it carries the encoded record. -/
theorem C6_one_log_when_enabled_witness :
    (logs (send_vector_data env_disconnected ⟨3, 4, 0, 0⟩).2.2).length = 1 ∧
    logs (send_vector_data env_disconnected ⟨3, 4, 0, 0⟩).2.2 =
      [(.info, some (encoded_record env_disconnected ⟨3, 4, 0, 0⟩))] := by
  have h := C6_one_log_when_enabled env_disconnected ⟨3, 4, 0, 0⟩ rfl
  exact ⟨h.1, h.2 rfl⟩

/-- C6 counterexample: a disabled dispatch produces zero log lines, not
one. -/
theorem C6_disabled_no_log_counterexample :
    (logs (send_vector_data env_disabled ⟨3, 4, 0, 0⟩).2.2).length = 0 ∧
    (logs (send_vector_data env_disabled ⟨3, 4, 0, 0⟩).2.2).length ≠ 1 := by
  constructor <;> decide

/-- C7: the request handlers' replies depend only on the request (and, for
the non-POST descriptor, the device id): two device states agreeing on the
device id give identical replies whatever `enable`, `server`, connectivity
or the dispatch outcome, and the scenario body with only `y = 2` yields
reply `(0, 2, 0, 2)`. -/
theorem C7_reply_independent (env1 env2 : Env) (method : String)
    (req : RpcRequest)
    (hid : env1.config.device_id = env2.config.device_id) :
    (vector_create_handler env1 req).1 = (vector_create_handler env2 req).1 ∧
    (vector_http_handler env1 method req).1 =
      (vector_http_handler env2 method req).1 ∧
    (vector_create_handler env1 ⟨none, some 2, none⟩).1 =
      { x := 0, y := 2, z := 0, magnitude := 2 } := by
  have hmag : calculate_magnitude ⟨0, 2, 0, 0⟩ = 2 := by
    unfold calculate_magnitude
    rw [show ((0:ℝ) * 0 + 2 * 2 + 0 * 0) = 2 ^ 2 by norm_num]
    exact Real.sqrt_sq (by norm_num)
  refine ⟨?_, ?_, ?_⟩
  · rw [create_reply_eq, create_reply_eq]
  · rw [http_reply_eq, http_reply_eq, hid]
  · rw [create_reply_eq]
    simp [hmag]

/-- C7 witness: the scenario request replies identically on a connected
and a disabled device, with magnitude 2. -/
theorem C7_reply_independent_witness :
    (vector_create_handler env_connected ⟨none, some 2, none⟩).1 =
      (vector_create_handler env_disabled ⟨none, some 2, none⟩).1 ∧
    (vector_create_handler env_connected ⟨none, some 2, none⟩).1 =
      { x := 0, y := 2, z := 0, magnitude := 2 } := by
  have h := C7_reply_independent env_connected env_disabled "POST"
    ⟨none, some 2, none⟩ rfl
  exact ⟨h.1, h.2.2⟩

/-- C8: a periodic tick with `send_telemetry` false dispatches nothing and
has no effects; with it true the tick dispatches exactly one sample built
from the device health metrics (free heap over 1000, uptime over 100, and
100 or 0 as the WiFi link sentinel). -/
theorem C8_tick_dispatches (env : Env) :
    (env.config.send_telemetry = false → telemetry_timer_cb env = ([], [])) ∧
    (env.config.send_telemetry = true →
      (telemetry_timer_cb env).1 =
        [⟨(env.free_heap : ℝ) / 1000, env.uptime / 100,
          if env.wifi_ip_acquired then 100 else 0, 0⟩]) := by
  constructor <;> intro h <;> simp [telemetry_timer_cb, h]

/-- C8 witness: a tick with telemetry off is a no-op; a tick with
telemetry on dispatches exactly the health-metric sample. -/
theorem C8_tick_dispatches_witness :
    telemetry_timer_cb env_telemetry_off = ([], []) ∧
    (telemetry_timer_cb env_connected).1 =
      [⟨(env_connected.free_heap : ℝ) / 1000, env_connected.uptime / 100,
        if env_connected.wifi_ip_acquired then 100 else 0, 0⟩] :=
  ⟨(C8_tick_dispatches env_telemetry_off).1 rfl,
    (C8_tick_dispatches env_connected).2 rfl⟩

/-- C9: startup arms at most one periodic timer; none when
`sync_interval ≤ 0`, and exactly one repeating timer at
`sync_interval * 1000` milliseconds when `sync_interval > 0`.  The call in
`mgos_app_init` is the only `mgos_set_timer` in the program, so the
interval is never changed afterwards. -/
theorem C9_timer_armed_once (cfg : Config) :
    (mgos_app_init cfg).length ≤ 1 ∧
    (cfg.sync_interval ≤ 0 → mgos_app_init cfg = []) ∧
    (0 < cfg.sync_interval →
      mgos_app_init cfg = [⟨cfg.sync_interval * 1000, true⟩]) := by
  unfold mgos_app_init
  by_cases h : cfg.sync_interval > 0
  · rw [if_pos h]
    exact ⟨by simp, fun hle => absurd h (not_lt.mpr hle), fun _ => rfl⟩
  · rw [if_neg h]
    exact ⟨by simp, fun _ => rfl, fun hlt => absurd hlt h⟩

/-- C9 witness: `sync_interval = 0` arms nothing; `sync_interval = 30`
arms one repeating timer. -/
theorem C9_timer_armed_once_witness :
    mgos_app_init ⟨true, some "a.b", some "dev1", true, 0⟩ = [] ∧
    mgos_app_init cfg_on = [⟨cfg_on.sync_interval * 1000, true⟩] :=
  ⟨(C9_timer_armed_once ⟨true, some "a.b", some "dev1", true, 0⟩).2.1
      (by decide),
    (C9_timer_armed_once cfg_on).2.2 (by decide)⟩

/-- C10: dispatch never touches the x, y, z axes; on either skipped gate
the sample is returned entirely unchanged, and past both gates exactly the
magnitude field is overwritten with `calculate_magnitude`. -/
theorem C10_frame (env : Env) (v : vector_data) :
    ((send_vector_data env v).1.x = v.x ∧ (send_vector_data env v).1.y = v.y ∧
      (send_vector_data env v).1.z = v.z) ∧
    (((send_vector_data env v).2.1 = .skippedDisabled ∨
        (send_vector_data env v).2.1 = .skippedNoServer) →
      (send_vector_data env v).1 = v) ∧
    (((send_vector_data env v).2.1 = .sent ∨
        (send_vector_data env v).2.1 = .skippedNotConnected) →
      (send_vector_data env v).1 = { v with magnitude := calculate_magnitude v }) := by
  unfold send_vector_data
  by_cases h1 : env.config.enable = false <;>
    by_cases h2 : server_missing env.config.server = true <;>
    by_cases h3 : env.mqtt_connected = true <;>
    simp [h1, h2, h3]

/-- C10 witness: past both gates only the magnitude field changes; on the
no-server gate the sample comes back untouched. -/
theorem C10_frame_witness :
    (send_vector_data env_connected ⟨3, 4, 0, 0⟩).1 =
      { x := 3, y := 4, z := 0,
        magnitude := calculate_magnitude ⟨3, 4, 0, 0⟩ } ∧
    (send_vector_data env_no_server ⟨3, 4, 0, 0⟩).1 = ⟨3, 4, 0, 0⟩ := by
  have h1 := C10_frame env_connected ⟨3, 4, 0, 0⟩
  have h2 := C10_frame env_no_server ⟨3, 4, 0, 0⟩
  exact ⟨h1.2.2 (Or.inl rfl), h2.2.1 (Or.inr rfl)⟩
